import Mathlib

/-!
Shallow embedding of the configuration resolution and validation engine of
`flowercare-exporter` (file `internal/config/config.go`).

Go strings are modelled as `List Char`; Go `time.Duration` values are modelled
as `Int` nanosecond counts; `float64` retry factors are modelled as `Rat`
(the claims only compare factors against 1, where IEEE comparison on the
concrete non-NaN values involved agrees with rational comparison).

The filesystem is modelled by a function from directory paths to the result of
`os.ReadDir`: either a listing error or a list of entries, each entry carrying
its name, whether it is a directory, and the outcome of reading plus
JSON-syntax-parsing its bytes (`FileData`). `Sensor.unmarshalJSON` then models
`encoding/json` decoding of a parsed JSON value into the anonymous `raw`
struct of `Sensor.UnmarshalJSON`: Go semantics are followed (top-level `null`
is a no-op success, unknown object keys are ignored, a present key whose value
has the wrong type is an error, duplicate keys are processed in order so the
last occurrence wins, absent fields keep their zero value).
-/

namespace Flowercare

/-- Go strings, modelled as lists of characters. -/
abbrev GoStr := List Char

/-- The `Sensor` struct of config.go (thresholds default to the Go zero value). -/
structure Sensor where
  name : GoStr := []
  macAddress : GoStr := []
  maxSoilMoist : Int := 0
  minSoilMoist : Int := 0
  maxSoilEc : Int := 0
  minSoilEc : Int := 0
  maxLightLux : Int := 0
  minLightLux : Int := 0
deriving DecidableEq, Repr

/-- The error produced by `parseSensor` (`errors.New("empty string")`). -/
inductive TokenErr where
  | emptyString
deriving DecidableEq, Repr

/-- `strings.SplitN(value, "=", 2)`: `none` when the string holds no `=`,
otherwise the parts before and after the FIRST `=`. -/
def splitN2 : GoStr → Option (GoStr × GoStr)
  | [] => none
  | c :: rest =>
    if c = '=' then some ([], rest)
    else
      match splitN2 rest with
      | none => none
      | some (l, r) => some (c :: l, r)

/-- `parseSensor` of config.go:119-135. -/
def parseSensor (value : GoStr) : Except TokenErr Sensor :=
  if value.length = 0 then
    .error .emptyString
  else
    match splitN2 value with
    | none => .ok { macAddress := value }
    | some (l, r) => .ok { name := l, macAddress := r }

/-- `SensorList.Set` of config.go:34-42: parse one token and append it. -/
def sensorListSet (s : List Sensor) (value : GoStr) : Except TokenErr (List Sensor) :=
  match parseSensor value with
  | .error e => .error e
  | .ok sensor => .ok (s ++ [sensor])

/-- pflag invoking `SensorList.Set` once per repeated `-s` token, in order;
the first failing token aborts (pflag's ExitOnError). -/
def sensorListSetAll (s : List Sensor) : List GoStr → Except TokenErr (List Sensor)
  | [] => .ok s
  | v :: rest =>
    match sensorListSet s v with
    | .error e => .error e
    | .ok s2 => sensorListSetAll s2 rest

/-- JSON values (the result of a successful JSON syntax parse). Numbers are
restricted to the integral ones, the only ones the claims exercise. -/
inductive Json where
  | null
  | bool (b : Bool)
  | num (n : Int)
  | str (s : GoStr)
  | arr (elems : List Json)
  | obj (fields : List (GoStr × Json))

/-- Decode error of `encoding/json` (type mismatch / unusable shape). -/
inductive JsonErr where
  | typeMismatch
deriving DecidableEq, Repr

/-- Last occurrence of a key in a JSON object: Go's streaming decoder assigns
duplicate keys in order, so the final occurrence wins. -/
def getField (fields : List (GoStr × Json)) (key : GoStr) : Option Json :=
  match fields with
  | [] => none
  | (k, v) :: rest =>
    match getField rest key with
    | some w => some w
    | none => if k = key then some v else none

/-- Decoding a JSON value into a Go `string` field: absent or `null` keeps the
zero value, a string is taken, anything else is a type error. -/
def decodeStrField : Option Json → Except JsonErr GoStr
  | none => .ok []
  | some .null => .ok []
  | some (.str s) => .ok s
  | some _ => .error .typeMismatch

/-- Decoding a JSON value into a Go `int` field: absent or `null` keeps the
zero value, an (integral) number is taken, anything else is a type error. -/
def decodeIntField : Option Json → Except JsonErr Int
  | none => .ok 0
  | some .null => .ok 0
  | some (.num n) => .ok n
  | some _ => .error .typeMismatch

/-- The nested `Parameter` struct of `Sensor.UnmarshalJSON`'s `raw`. -/
structure RawParameter where
  maxSoilMoist : Int := 0
  minSoilMoist : Int := 0
  maxSoilEc : Int := 0
  minSoilEc : Int := 0
  maxLightLux : Int := 0
  minLightLux : Int := 0
deriving DecidableEq, Repr

/-- Decoding the `parameter` member into the nested struct. -/
def decodeParameter : Option Json → Except JsonErr RawParameter
  | none => .ok {}
  | some .null => .ok {}
  | some (.obj fields) => do
    let a ← decodeIntField (getField fields ("max_soil_moist".toList))
    let b ← decodeIntField (getField fields ("min_soil_moist".toList))
    let c ← decodeIntField (getField fields ("max_soil_ec".toList))
    let d ← decodeIntField (getField fields ("min_soil_ec".toList))
    let e ← decodeIntField (getField fields ("max_light_lux".toList))
    let f ← decodeIntField (getField fields ("min_light_lux".toList))
    .ok { maxSoilMoist := a, minSoilMoist := b, maxSoilEc := c,
          minSoilEc := d, maxLightLux := e, minLightLux := f }
  | some _ => .error .typeMismatch

/-- `Sensor.UnmarshalJSON` of config.go:55-82, applied to the JSON value the
file bytes parse to. `json.Unmarshal` of `null` into a struct is a no-op
success; a non-object, non-null top level is a type error; unknown keys are
ignored. -/
def Sensor.unmarshalJSON : Json → Except JsonErr Sensor
  | .null => .ok {}
  | .obj fields => do
    let name ← decodeStrField (getField fields ("name".toList))
    let mac ← decodeStrField (getField fields ("sensor".toList))
    let p ← decodeParameter (getField fields ("parameter".toList))
    .ok { name := name, macAddress := mac,
          maxSoilMoist := p.maxSoilMoist, minSoilMoist := p.minSoilMoist,
          maxSoilEc := p.maxSoilEc, minSoilEc := p.minSoilEc,
          maxLightLux := p.maxLightLux, minLightLux := p.minLightLux }
  | _ => .error .typeMismatch

/-- Outcome of `os.ReadFile` plus JSON syntax parsing for one file:
the read failed, the bytes were not syntactically valid JSON, or they parsed
to a JSON value. -/
inductive FileData where
  | unreadable
  | malformed
  | content (j : Json)

/-- One entry of an `os.ReadDir` listing. -/
structure DirEntry where
  name : GoStr
  isDir : Bool
  data : FileData

/-- An `os.ReadDir` error, carrying its message. -/
structure DirErr where
  msg : GoStr
deriving DecidableEq, Repr

/-- The filter of config.go:92: not a directory and name ends in ".json". -/
def eligible (entry : DirEntry) : Bool :=
  !entry.isDir && (".json".toList).isSuffixOf entry.name

/-- The loop body of `readSensorsFromDir` (config.go:90-107): skip non-eligible
entries; skip files whose read fails; skip files whose unmarshal fails; append
each successfully decoded sensor, in listing order. -/
def readLoop : List DirEntry → List Sensor
  | [] => []
  | entry :: rest =>
    if eligible entry then
      match entry.data with
      | .unreadable => readLoop rest
      | .malformed => readLoop rest
      | .content j =>
        match Sensor.unmarshalJSON j with
        | .error _ => readLoop rest
        | .ok sensor => sensor :: readLoop rest
    else
      readLoop rest

/-- `readSensorsFromDir` of config.go:84-109, applied to the result of
`os.ReadDir`: a listing failure is returned as-is with no sensors; otherwise
the loop collects the decodable files. -/
def readSensorsFromDir (listing : Except DirErr (List DirEntry)) :
    Except DirErr (List Sensor) :=
  match listing with
  | .error e => .error e
  | .ok entries => .ok (readLoop entries)

/-- Whether one entry's file data decodes to a sensor. -/
def entryDecodes (e : DirEntry) : Bool :=
  match e.data with
  | .content j =>
    match Sensor.unmarshalJSON j with
    | .ok _ => true
    | .error _ => false
  | _ => false

/-- Number of eligible, decodable record files in a listing (the "N" of the
spec's partial-failure property). -/
def goodCount (entries : List DirEntry) : Nat :=
  (entries.filter (fun e => eligible e && entryDecodes e)).length

/-- Number of eligible record files that fail to read or decode (the "M"). -/
def badCount (entries : List DirEntry) : Nat :=
  (entries.filter (fun e => eligible e && !entryDecodes e)).length

/-- `time.Millisecond` in nanoseconds. -/
def millisecond : Int := 1000000

/-- `time.Second` in nanoseconds. -/
def second : Int := 1000000000

/-- `time.Minute` in nanoseconds. -/
def minute : Int := 60 * second

/-- The `RetryConfig` struct of config.go:169-173. -/
structure RetryConfig where
  minDuration : Int := 0
  maxDuration : Int := 0
  factor : Rat := 0
deriving DecidableEq, Repr

/-- The `Config` struct of config.go:157-167. Field defaults are the Go zero
values (`LogLevel(0)` is `logrus.PanicLevel`). -/
structure Config where
  logLevel : Nat := 0
  listenAddr : GoStr := []
  sensors : List Sensor := []
  device : GoStr := []
  refreshDuration : Int := 0
  refreshTimeout : Int := 0
  staleDuration : Int := 0
  retry : RetryConfig := {}
  sensorDir : GoStr := []
deriving DecidableEq, Repr

/-- The zero-value `Config` of Go. -/
def zeroConfig : Config := {}

/-- The baseline defaults set at config.go:176-189 (`logrus.InfoLevel` = 4). -/
def defaultConfig : Config :=
  { logLevel := 4
    listenAddr := ":9294".toList
    device := "hci0".toList
    sensorDir := "internal/config/sensorData".toList
    refreshDuration := 2 * minute
    refreshTimeout := minute
    staleDuration := 5 * minute
    retry := { minDuration := 30 * second, maxDuration := 30 * minute, factor := 2 } }

/-- The validation errors of config.go:218-244, with their offending values. -/
inductive VErr where
  | needSensor
  | needDevice
  | staleTooSmall (required : Int)
  | retryMinTooSmall (val : Int)
  | retryMaxTooSmall (minD maxD : Int)
  | retryFactorTooSmall (factor : Rat)
deriving DecidableEq, Repr

/-- The advisory warning of config.go:226-228. -/
inductive Warning where
  | refreshBelowMinute (d : Int)
deriving DecidableEq, Repr

/-- What the validation tail of `Parse` returns: `(result, nil)` on success or
`(result, err)` on the first failing check — note Go returns `result`, not the
zero value, in both cases. -/
inductive VResult where
  | ok (c : Config)
  | err (c : Config) (e : VErr)
deriving DecidableEq, Repr

/-- The invariant battery of config.go:218-246, in source order, short
circuiting on the first failure; the refresh check (config.go:226-228) only
logs a warning and continues. -/
def validate (result : Config) : List Warning × VResult :=
  if result.sensors.length = 0 then
    ([], .err result .needSensor)
  else if result.device.length = 0 then
    ([], .err result .needDevice)
  else
    let warnings :=
      if result.refreshDuration < minute then
        [Warning.refreshBelowMinute result.refreshDuration]
      else []
    if result.staleDuration < 2 * result.refreshDuration then
      (warnings, .err result (.staleTooSmall (2 * result.refreshDuration)))
    else if result.retry.minDuration < 30 * second then
      (warnings, .err result (.retryMinTooSmall result.retry.minDuration))
    else if result.retry.maxDuration < result.retry.minDuration then
      (warnings, .err result (.retryMaxTooSmall result.retry.minDuration result.retry.maxDuration))
    else if result.retry.factor < 1 then
      (warnings, .err result (.retryFactorTooSmall result.retry.factor))
    else
      (warnings, .ok result)

/-- The command-line flag assignments of one run: `none` means the flag was
not supplied, `some v` that pflag will assign `v` at `pflag.Parse()` time.
`sensorTokens` holds the repeated `-s` values in order of supply. -/
structure Flags where
  sensorDir : Option GoStr := none
  sensorTokens : List GoStr := []
  logLevel : Option Nat := none
  addr : Option GoStr := none
  adapter : Option GoStr := none
  refreshDuration : Option Int := none
  refreshTimeout : Option Int := none
  staleDuration : Option Int := none
  retryMinDuration : Option Int := none
  retryMaxDuration : Option Int := none
  retryFactor : Option Rat := none

/-- Process-terminating outcomes of `Parse` before validation:
`dirReadError` is the `log.Fatalf` of config.go:200; `unknownSensorFlag` is
pflag's ExitOnError when `-s` is supplied but never registered (directory
branch); `tokenParseError` is pflag's ExitOnError when `SensorList.Set` fails
(CLI branch). -/
inductive FatalErr where
  | dirReadError (e : DirErr)
  | unknownSensorFlag
  | tokenParseError (e : TokenErr)
deriving DecidableEq, Repr

/-- `pflag.Parse()` (config.go:216) assigning every supplied scalar flag to
its bound `result` field. -/
def applyScalarFlags (flags : Flags) (result : Config) : Config :=
  { result with
    sensorDir := flags.sensorDir.getD result.sensorDir
    logLevel := flags.logLevel.getD result.logLevel
    listenAddr := flags.addr.getD result.listenAddr
    device := flags.adapter.getD result.device
    refreshDuration := flags.refreshDuration.getD result.refreshDuration
    refreshTimeout := flags.refreshTimeout.getD result.refreshTimeout
    staleDuration := flags.staleDuration.getD result.staleDuration
    retry := { minDuration := flags.retryMinDuration.getD result.retry.minDuration
               maxDuration := flags.retryMaxDuration.getD result.retry.maxDuration
               factor := flags.retryFactor.getD result.retry.factor } }

/-- The assembly phase of `Parse` (config.go:175-216). `fs` maps a directory
path to its `os.ReadDir` result. The branch at config.go:195 tests
`result.SensorDir` BEFORE `pflag.Parse()` has run, so it sees the built-in
default (registration leaves the bound variable at its default); on that
branch `readSensorsFromDir` is likewise called with the pre-parse (default)
path, the `-s` flag is never registered (any `-s` token makes the later
`pflag.Parse()` exit), and only afterwards does `pflag.Parse()` overwrite the
scalar fields, including `SensorDir` itself. The else branch registers `-s`
and lets `pflag.Parse()` feed each token to `SensorList.Set`. -/
def assembleConfig (flags : Flags)
    (fs : GoStr → Except DirErr (List DirEntry)) : Except FatalErr Config :=
  let result := defaultConfig
  if result.sensorDir.length ≠ 0 then
    match readSensorsFromDir (fs result.sensorDir) with
    | .error e => .error (.dirReadError e)
    | .ok sensors =>
      if flags.sensorTokens.length ≠ 0 then
        .error .unknownSensorFlag
      else
        let parsed := applyScalarFlags flags result
        .ok { parsed with sensors := sensors }
  else
    match sensorListSetAll [] flags.sensorTokens with
    | .error e => .error (.tokenParseError e)
    | .ok sensors =>
      let parsed := applyScalarFlags flags result
      .ok { parsed with sensors := sensors }

/-- `Parse` of config.go:175-247: assemble, then run the invariant battery. -/
def Parse (flags : Flags) (fs : GoStr → Except DirErr (List DirEntry)) :
    Except FatalErr (List Warning × VResult) :=
  (assembleConfig flags fs).map validate

/-- The sensor a token parses to, with the zero sensor as a dummy for failing
tokens (used only to state what `sensorListSetAll` appends when every token
succeeds). -/
def parsedOrZero (t : GoStr) : Sensor :=
  match parseSensor t with
  | .ok s => s
  | .error _ => {}

/-- Fixture: a well-formed sensor record file `a.json`. -/
def goodEntry : DirEntry :=
  { name := "a.json".toList
    isDir := false
    data := .content (Json.obj [("sensor".toList, Json.str ("AA".toList))]) }

/-- Fixture: a filesystem whose default sensor directory holds the given
entries and where listing any other path fails. -/
def defaultDirFs (entries : List DirEntry) : GoStr → Except DirErr (List DirEntry) :=
  fun p =>
    if p = defaultConfig.sensorDir then .ok entries
    else .error { msg := "unexpected directory".toList }

/-- Fixture: flags setting the adapter to the empty string. -/
def c2Flags : Flags := { adapter := some [] }

/-- Fixture: the config `Parse` assembles under `c2Flags` over a listing
holding only `goodEntry`. -/
def c2ErrConfig : Config :=
  { defaultConfig with device := [], sensors := [{ macAddress := "AA".toList }] }

/-- Fixture: a record file whose JSON carries a name but no address. -/
def c3Entry : DirEntry :=
  { name := "b.json".toList
    isDir := false
    data := .content (Json.obj [("name".toList, Json.str ("x".toList))]) }

/-- Fixture: a record file whose JSON is a syntactically valid object of
unrecognized shape (only an unknown key). -/
def c9Entry : DirEntry :=
  { name := "c.json".toList
    isDir := false
    data := .content (Json.obj [("foo".toList, Json.num 1)]) }

/-- Fixture: a config passing every enforced check while its refresh interval
is below one minute. -/
def c6OkConfig : Config :=
  { sensors := [{ macAddress := "AA".toList }]
    device := "hci0".toList
    refreshDuration := 0
    staleDuration := 0
    retry := { minDuration := 30 * second, maxDuration := 30 * second, factor := 1 } }

/-- Fixture: a config at the stale boundary `staleDuration = 2*refreshDuration`. -/
def c7OkConfig : Config :=
  { sensors := [{ macAddress := "AA".toList }]
    device := "hci0".toList
    refreshDuration := 2 * minute
    staleDuration := 4 * minute
    retry := { minDuration := 30 * second, maxDuration := 30 * minute, factor := 2 } }

/-- Fixture: `c7OkConfig` with the stale window one nanosecond short. -/
def c7BadConfig : Config :=
  { c7OkConfig with staleDuration := 4 * minute - 1 }

/-- Fixture: `c7OkConfig` with retry minimum at 29s999ms. -/
def c8MinBadConfig : Config :=
  { c7OkConfig with retry := { c7OkConfig.retry with minDuration := 30 * second - millisecond } }

/-- Fixture: `c7OkConfig` with retry maximum equal to the minimum and factor
exactly one. -/
def c8EqConfig : Config :=
  { c7OkConfig with retry := { minDuration := 30 * second, maxDuration := 30 * second, factor := 1 } }

/-- Fixture: `c8EqConfig` with a retry factor below one. -/
def c8FactorBadConfig : Config :=
  { c7OkConfig with retry := { minDuration := 30 * second, maxDuration := 30 * second, factor := mkRat 1 2 } }

/-! ## Helper lemmas -/

theorem splitN2_of_not_mem (v : GoStr) (h : '=' ∉ v) : splitN2 v = none := by
  induction v with
  | nil => rfl
  | cons c rest ih =>
    have hc : ¬ (c = '=') := by
      rintro rfl
      exact h (List.mem_cons_self _ _)
    have hr : '=' ∉ rest := fun hh => h (List.mem_cons_of_mem _ hh)
    simp [splitN2, hc, ih hr]

theorem splitN2_first (l r : GoStr) (h : '=' ∉ l) :
    splitN2 (l ++ '=' :: r) = some (l, r) := by
  induction l with
  | nil => simp [splitN2]
  | cons c rest ih =>
    have hc : ¬ (c = '=') := by
      rintro rfl
      exact h (List.mem_cons_self _ _)
    have hr : '=' ∉ rest := fun hh => h (List.mem_cons_of_mem _ hh)
    simp [splitN2, hc, ih hr]

theorem readLoop_length (entries : List DirEntry) :
    (readLoop entries).length = goodCount entries := by
  induction entries with
  | nil => rfl
  | cons e rest ih =>
    simp only [readLoop, goodCount, List.filter_cons] at *
    by_cases he : eligible e = true
    · cases hd : e.data with
      | unreadable => simp [he, entryDecodes, hd, ih]
      | malformed => simp [he, entryDecodes, hd, ih]
      | content j =>
        cases hu : Sensor.unmarshalJSON j with
        | error err => simp [he, entryDecodes, hd, hu, ih]
        | ok s => simp [he, entryDecodes, hd, hu, ih]
    · simp [he, ih]

theorem validate_err_carries (c c' : Config) (w : List Warning) (e : VErr)
    (h : validate c = (w, .err c' e)) : c' = c := by
  unfold validate at h
  split_ifs at h <;> simp_all

theorem readLoop_mem (entries : List DirEntry) (e : DirEntry) (j : Json) (s : Sensor)
    (hmem : e ∈ entries) (hel : eligible e = true) (hd : e.data = .content j)
    (hu : Sensor.unmarshalJSON j = .ok s) : s ∈ readLoop entries := by
  induction entries with
  | nil => cases hmem
  | cons x rest ih =>
    rcases List.mem_cons.mp hmem with hx | hx
    · subst hx
      simp [readLoop, hel, hd, hu]
    · have hs := ih hx
      simp only [readLoop]
      by_cases hx2 : eligible x = true
      · cases hd2 : x.data with
        | unreadable => simpa [hx2, hd2] using hs
        | malformed => simpa [hx2, hd2] using hs
        | content j2 =>
          cases hu2 : Sensor.unmarshalJSON j2 with
          | error e2 => simpa [hx2, hd2, hu2] using hs
          | ok s2 =>
            simp only [hx2, hd2, hu2, if_true]
            exact List.mem_cons_of_mem _ hs
      · simpa [hx2] using hs

theorem sensorListSetAll_ok (tokens : List GoStr) (s res : List Sensor)
    (h : sensorListSetAll s tokens = .ok res) :
    res = s ++ tokens.map parsedOrZero := by
  induction tokens generalizing s with
  | nil =>
    simp only [sensorListSetAll] at h
    cases h
    simp
  | cons t rest ih =>
    simp only [sensorListSetAll, sensorListSet] at h
    cases hp : parseSensor t with
    | error e => rw [hp] at h; cases h
    | ok snew =>
      rw [hp] at h
      have := ih (s ++ [snew]) h
      simp [this, parsedOrZero, hp]

theorem assembleConfig_dir (flags : Flags) (fs : GoStr → Except DirErr (List DirEntry)) :
    assembleConfig flags fs =
      match readSensorsFromDir (fs defaultConfig.sensorDir) with
      | .error e => .error (.dirReadError e)
      | .ok sensors =>
        if flags.sensorTokens.length ≠ 0 then
          .error .unknownSensorFlag
        else
          let parsed := applyScalarFlags flags defaultConfig
          .ok { parsed with sensors := sensors } := rfl

/-! ## Claim theorems -/

/-- C1: the claim says an empty sensor-source directory path selects the
CLI-list strategy. The code evaluates the branch condition of config.go:195
before `pflag.Parse()` has run, so it always sees the non-empty built-in
default: here the operator passes `--sensordir=""` yet the run still reads the
default directory (directory strategy), returning its sensor and succeeding,
where the claim demands the CLI-list strategy (which, with no `-s` tokens,
would have produced the "no sensors" error). -/
theorem c1_directory_strategy_used_despite_empty_dir_flag :
    Parse { sensorDir := some [] } (defaultDirFs [goodEntry]) =
      .ok ([], .ok { defaultConfig with
                      sensorDir := []
                      sensors := [{ macAddress := "AA".toList }] }) := by
  rfl

/-- C2 counterexample: a run failing the adapter invariant returns the
populated assembled Config (defaults plus overrides plus sensors) alongside
the error, not the zero-value Config. -/
theorem c2_error_returns_populated_config :
    Parse c2Flags (defaultDirFs [goodEntry]) = .ok ([], .err c2ErrConfig .needDevice)
    ∧ c2ErrConfig ≠ zeroConfig := by
  constructor
  · rfl
  · decide

/-- C2 amended: when an invariant check fails, `Parse` returns the error
together with the fully assembled Config (the value `assembleConfig`
produced), never some other partially reset value — in particular not the
zero-value Config whenever the assembled value differs from it. -/
theorem c2_amended_error_carries_assembled_config
    (flags : Flags) (fs : GoStr → Except DirErr (List DirEntry))
    (w : List Warning) (c : Config) (e : VErr)
    (h : Parse flags fs = .ok (w, .err c e)) :
    assembleConfig flags fs = .ok c := by
  unfold Parse at h
  cases ha : assembleConfig flags fs with
  | error f =>
    rw [ha] at h
    cases h
  | ok c0 =>
    rw [ha] at h
    simp only [Except.map] at h
    have h2 : validate c0 = (w, .err c e) := by
      injection h
    rw [validate_err_carries c0 c w e h2]

/-- C2 amended witness: concrete failing run whose error carries the
assembled config. -/
theorem c2_amended_error_carries_assembled_config_witness :
    assembleConfig c2Flags (defaultDirFs [goodEntry]) = .ok c2ErrConfig :=
  c2_amended_error_carries_assembled_config c2Flags (defaultDirFs [goodEntry])
    [] c2ErrConfig .needDevice rfl

/-- C3 counterexample: a record file with no `sensor` member decodes to a
descriptor with an empty hardware address, and `readSensorsFromDir` returns
it rather than dropping it. -/
theorem c3_empty_address_descriptor_returned :
    readSensorsFromDir (.ok [c3Entry]) = .ok [{ name := "x".toList }]
    ∧ ({ name := "x".toList } : Sensor).macAddress = [] := by
  constructor
  · rfl
  · rfl

/-- C3 amended: the directory strategy appends every successfully decoded
descriptor to the returned list, with no check on the hardware address —
descriptors with empty addresses are propagated, not dropped. -/
theorem c3_amended_decoded_descriptors_always_returned
    (entries : List DirEntry) (e : DirEntry) (j : Json) (s : Sensor)
    (hmem : e ∈ entries) (hel : eligible e = true) (hd : e.data = .content j)
    (hu : Sensor.unmarshalJSON j = .ok s) :
    s ∈ readLoop entries ∧ readSensorsFromDir (.ok entries) = .ok (readLoop entries) :=
  ⟨readLoop_mem entries e j s hmem hel hd hu, rfl⟩

/-- C3 amended witness: the empty-address descriptor of `c3Entry` is a member
of the returned list. -/
theorem c3_amended_decoded_descriptors_always_returned_witness :
    ({ name := "x".toList } : Sensor) ∈ readLoop [c3Entry]
    ∧ readSensorsFromDir (.ok [c3Entry]) = .ok (readLoop [c3Entry]) :=
  c3_amended_decoded_descriptors_always_returned [c3Entry] c3Entry
    (Json.obj [("name".toList, Json.str ("x".toList))]) { name := "x".toList }
    (List.mem_cons_self _ _) rfl rfl rfl

/-- C4: the directory strategy never fails because of bad record files: for
every listing it returns, with a nil error, exactly as many descriptors as
there are eligible decodable files (the bad ones are skipped), the empty
listing yields zero sensors with a nil error, and a directory-listing failure
is propagated as an error carrying no sensors; at the `Parse` level a listing
failure of the (default) sensor directory is fatal for every flag set. -/
theorem c4_partial_failure_policy :
    (∀ e, readSensorsFromDir (.error e) = .error e)
    ∧ (∀ entries, readSensorsFromDir (.ok entries) = .ok (readLoop entries)
        ∧ (readLoop entries).length = goodCount entries)
    ∧ readSensorsFromDir (.ok []) = .ok []
    ∧ (∀ (flags : Flags) (fs : GoStr → Except DirErr (List DirEntry)) (e : DirErr),
        fs defaultConfig.sensorDir = .error e →
        Parse flags fs = .error (.dirReadError e)) := by
  refine ⟨fun e => rfl, fun entries => ⟨rfl, readLoop_length entries⟩, rfl, ?_⟩
  intro flags fs e hfs
  have h1 : assembleConfig flags fs = .error (.dirReadError e) := by
    rw [assembleConfig_dir, hfs]
    rfl
  unfold Parse
  rw [h1]
  rfl

/-- C4 witness: a concrete failing listing is fatal to a concrete run. -/
theorem c4_partial_failure_policy_witness :
    Parse {} (fun _ => .error { msg := "permission denied".toList }) =
      .error (.dirReadError { msg := "permission denied".toList }) :=
  c4_partial_failure_policy.2.2.2 {} (fun _ => .error { msg := "permission denied".toList })
    { msg := "permission denied".toList } rfl

/-- C5: CLI token parsing: the empty token fails with the "empty string"
error; a token without `=` becomes a descriptor whose address is the whole
token and whose name is empty; a token with `=` is split on the first `=`
only, left side the name, right side (which may contain further `=`) the
address; and when every token parses, `SensorList.Set` appends the parsed
descriptors to the list in the order supplied. -/
theorem c5_token_parsing :
    (parseSensor [] = .error .emptyString)
    ∧ (∀ v : GoStr, v ≠ [] → '=' ∉ v → parseSensor v = .ok { macAddress := v })
    ∧ (∀ l r : GoStr, '=' ∉ l →
        parseSensor (l ++ '=' :: r) = .ok { name := l, macAddress := r })
    ∧ (∀ (s res : List Sensor) (tokens : List GoStr),
        sensorListSetAll s tokens = .ok res → res = s ++ tokens.map parsedOrZero) := by
  refine ⟨rfl, ?_, ?_, ?_⟩
  · intro v hv hne
    have h0 : ¬ (v.length = 0) := fun h => hv (List.length_eq_zero.mp h)
    simp [parseSensor, h0, splitN2_of_not_mem v hne]
  · intro l r hl
    have h0 : ¬ ((l ++ '=' :: r).length = 0) := by simp
    simp [parseSensor, h0, splitN2_first l r hl]
  · intro s res tokens h
    exact sensorListSetAll_ok tokens s res h

/-- C5 witness: concrete tokens exercising each parsing rule. -/
theorem c5_token_parsing_witness :
    parseSensor ("AA:BB".toList) = .ok { macAddress := "AA:BB".toList }
    ∧ parseSensor ("kitchen=a=b".toList) =
        .ok { name := "kitchen".toList, macAddress := "a=b".toList }
    ∧ ([{ macAddress := "AA".toList },
        { name := "k".toList, macAddress := "b".toList }] : List Sensor) =
        [] ++ (["AA".toList, "k=b".toList].map parsedOrZero) :=
  ⟨c5_token_parsing.2.1 ("AA:BB".toList) (by decide) (by decide),
   c5_token_parsing.2.2.1 ("kitchen".toList) ("a=b".toList) (by decide),
   c5_token_parsing.2.2.2 []
     [{ macAddress := "AA".toList }, { name := "k".toList, macAddress := "b".toList }]
     ["AA".toList, "k=b".toList] rfl⟩

/-- C6: validation short-circuits in source order: when both the sensor list
and the adapter are empty, the reported error is the "no sensors" one; when
the sensor and adapter checks pass and the refresh interval is below one
minute, only the advisory warning is emitted; and every config passing the
five enforced checks validates successfully no matter how small its refresh
interval is. -/
theorem c6_validation_order :
    (∀ c : Config, c.sensors.length = 0 → c.device.length = 0 →
        validate c = ([], .err c .needSensor))
    ∧ (∀ c : Config, c.sensors.length ≠ 0 → c.device.length ≠ 0 →
        c.refreshDuration < minute →
        (validate c).1 = [Warning.refreshBelowMinute c.refreshDuration])
    ∧ (∀ c : Config, c.sensors.length ≠ 0 → c.device.length ≠ 0 →
        ¬ (c.staleDuration < 2 * c.refreshDuration) →
        ¬ (c.retry.minDuration < 30 * second) →
        ¬ (c.retry.maxDuration < c.retry.minDuration) →
        ¬ (c.retry.factor < 1) →
        (validate c).2 = .ok c) := by
  refine ⟨?_, ?_, ?_⟩
  · intro c h1 _
    simp [validate, h1]
  · intro c h1 h2 h3
    simp only [validate, h1, h2, if_false, if_neg h1, if_neg h2, if_pos h3]
    split_ifs <;> rfl
  · intro c h1 h2 h3 h4 h5 h6
    simp [validate, h1, h2, h3, h4, h5, h6]

/-- C6 witness: the zero config reports the "no sensors" error although its
adapter is empty too; `c6OkConfig` has a zero refresh interval yet validates
with only the advisory warning. -/
theorem c6_validation_order_witness :
    validate zeroConfig = ([], .err zeroConfig .needSensor)
    ∧ (validate c6OkConfig).1 = [Warning.refreshBelowMinute c6OkConfig.refreshDuration]
    ∧ (validate c6OkConfig).2 = .ok c6OkConfig :=
  ⟨c6_validation_order.1 zeroConfig rfl rfl,
   c6_validation_order.2.1 c6OkConfig (by decide) (by decide) (by decide),
   c6_validation_order.2.2 c6OkConfig (by decide) (by decide) (by decide)
     (by decide) (by decide) (by decide)⟩

/-- C7: the staleness check is inclusive at its boundary: with the earlier
checks passing, `staleDuration = 2*refreshDuration` validates successfully
(given the retry checks also pass), while `staleDuration = 2*refreshDuration`
minus one nanosecond fails with the stale invariant error. -/
theorem c7_stale_boundary :
    (∀ c : Config, c.sensors.length ≠ 0 → c.device.length ≠ 0 →
        c.staleDuration = 2 * c.refreshDuration →
        ¬ (c.retry.minDuration < 30 * second) →
        ¬ (c.retry.maxDuration < c.retry.minDuration) →
        ¬ (c.retry.factor < 1) →
        (validate c).2 = .ok c)
    ∧ (∀ c : Config, c.sensors.length ≠ 0 → c.device.length ≠ 0 →
        c.staleDuration = 2 * c.refreshDuration - 1 →
        (validate c).2 = .err c (.staleTooSmall (2 * c.refreshDuration))) := by
  constructor
  · intro c h1 h2 h3 h4 h5 h6
    have h3n : ¬ (c.staleDuration < 2 * c.refreshDuration) := by omega
    simp [validate, h1, h2, h3n, h4, h5, h6]
  · intro c h1 h2 h3
    have h3y : c.staleDuration < 2 * c.refreshDuration := by omega
    simp [validate, h1, h2, h3y]

/-- C7 witness: the boundary pair of configs at `stale = 2*refresh` and
`stale = 2*refresh - 1ns`. -/
theorem c7_stale_boundary_witness :
    (validate c7OkConfig).2 = .ok c7OkConfig
    ∧ (validate c7BadConfig).2 =
        .err c7BadConfig (.staleTooSmall (2 * c7BadConfig.refreshDuration)) :=
  ⟨c7_stale_boundary.1 c7OkConfig (by decide) (by decide) (by decide)
     (by decide) (by decide) (by decide),
   c7_stale_boundary.2 c7BadConfig (by decide) (by decide) (by decide)⟩

/-- C8: the retry checks are inclusive at their boundaries: retry minimum of
exactly 30s passes (conjunct 1, whose hypotheses allow it), 29s999ms fails
with the retry-minimum error (conjunct 2); retry maximum equal to the minimum
together with factor exactly 1 passes (conjunct 3); any factor below 1 fails
with the factor error (conjunct 4). -/
theorem c8_retry_boundaries :
    (∀ c : Config, c.sensors.length ≠ 0 → c.device.length ≠ 0 →
        ¬ (c.staleDuration < 2 * c.refreshDuration) →
        c.retry.minDuration = 30 * second →
        ¬ (c.retry.maxDuration < c.retry.minDuration) →
        ¬ (c.retry.factor < 1) →
        (validate c).2 = .ok c)
    ∧ (∀ c : Config, c.sensors.length ≠ 0 → c.device.length ≠ 0 →
        ¬ (c.staleDuration < 2 * c.refreshDuration) →
        c.retry.minDuration = 30 * second - millisecond →
        (validate c).2 = .err c (.retryMinTooSmall c.retry.minDuration))
    ∧ (∀ c : Config, c.sensors.length ≠ 0 → c.device.length ≠ 0 →
        ¬ (c.staleDuration < 2 * c.refreshDuration) →
        ¬ (c.retry.minDuration < 30 * second) →
        c.retry.maxDuration = c.retry.minDuration →
        c.retry.factor = 1 →
        (validate c).2 = .ok c)
    ∧ (∀ c : Config, c.sensors.length ≠ 0 → c.device.length ≠ 0 →
        ¬ (c.staleDuration < 2 * c.refreshDuration) →
        ¬ (c.retry.minDuration < 30 * second) →
        ¬ (c.retry.maxDuration < c.retry.minDuration) →
        c.retry.factor < 1 →
        (validate c).2 = .err c (.retryFactorTooSmall c.retry.factor)) := by
  refine ⟨?_, ?_, ?_, ?_⟩
  · intro c h1 h2 h3 h4 h5 h6
    have h4n : ¬ (c.retry.minDuration < 30 * second) := by
      rw [h4]
      exact lt_irrefl _
    simp [validate, h1, h2, h3, h4n, h5, h6]
  · intro c h1 h2 h3 h4
    have h4y : c.retry.minDuration < 30 * second := by
      rw [h4]; unfold millisecond second; omega
    simp [validate, h1, h2, h3, h4y]
  · intro c h1 h2 h3 h4 h5 h6
    have h5n : ¬ (c.retry.maxDuration < c.retry.minDuration) := by
      rw [h5]
      exact lt_irrefl _
    have h6n : ¬ (c.retry.factor < 1) := by
      rw [h6]
      exact lt_irrefl _
    simp [validate, h1, h2, h3, h4, h5n, h6n]
  · intro c h1 h2 h3 h4 h5 h6
    simp [validate, h1, h2, h3, h4, h5, h6]

/-- C8 witness: concrete configs at each retry boundary. -/
theorem c8_retry_boundaries_witness :
    (validate c7OkConfig).2 = .ok c7OkConfig
    ∧ (validate c8MinBadConfig).2 =
        .err c8MinBadConfig (.retryMinTooSmall c8MinBadConfig.retry.minDuration)
    ∧ (validate c8EqConfig).2 = .ok c8EqConfig
    ∧ (validate c8FactorBadConfig).2 =
        .err c8FactorBadConfig (.retryFactorTooSmall c8FactorBadConfig.retry.factor) :=
  ⟨c8_retry_boundaries.1 c7OkConfig (by decide) (by decide) (by decide)
     (by decide) (by decide) (by decide),
   c8_retry_boundaries.2.1 c8MinBadConfig (by decide) (by decide) (by decide) (by decide),
   c8_retry_boundaries.2.2.1 c8EqConfig (by decide) (by decide) (by decide)
     (by decide) (by decide) (by decide),
   c8_retry_boundaries.2.2.2 c8FactorBadConfig (by decide) (by decide) (by decide)
     (by decide) (by decide) (by decide)⟩

/-- C9 counterexample: a syntactically valid record of unrecognized shape (an
object holding only the unknown key `foo`) is NOT treated as a decode failure:
it decodes into the zero descriptor, and the directory strategy returns it. -/
theorem c9_unknown_shape_decodes_silently :
    Sensor.unmarshalJSON (Json.obj [("foo".toList, Json.num 1)]) = .ok {}
    ∧ readLoop [c9Entry] = [{}] := by
  constructor
  · rfl
  · rfl

/-- C9 amended: malformed syntax is a per-file decode failure (every such file
is skipped, conjunct 1); decoding also fails whenever the recognized top-level
member `name` or `sensor` holds a value that is neither a string nor null
(conjuncts 2 and 3), whenever `parameter` holds a value that is neither an
object nor null (conjunct 4), and whenever the top level itself is neither an
object nor null (conjunct 5); but every syntactically valid object with none
of the recognized members present is silently decoded into the zero-valued
descriptor, its unknown keys being ignored (conjunct 6). -/
theorem c9_amended_decode_failures :
    (∀ (nm : GoStr) (rest : List DirEntry),
        readLoop ({ name := nm, isDir := false, data := .malformed } :: rest) = readLoop rest)
    ∧ (∀ (fields : List (GoStr × Json)) (v : Json),
        getField fields ("name".toList) = some v →
        (∀ s, v ≠ Json.str s) → v ≠ Json.null →
        Sensor.unmarshalJSON (.obj fields) = .error .typeMismatch)
    ∧ (∀ (fields : List (GoStr × Json)) (v : Json),
        getField fields ("sensor".toList) = some v →
        (∀ s, v ≠ Json.str s) → v ≠ Json.null →
        Sensor.unmarshalJSON (.obj fields) = .error .typeMismatch)
    ∧ (∀ (fields : List (GoStr × Json)) (v : Json),
        getField fields ("parameter".toList) = some v →
        (∀ fs, v ≠ Json.obj fs) → v ≠ Json.null →
        Sensor.unmarshalJSON (.obj fields) = .error .typeMismatch)
    ∧ (∀ j : Json, (∀ fs, j ≠ Json.obj fs) → j ≠ Json.null →
        Sensor.unmarshalJSON j = .error .typeMismatch)
    ∧ (∀ fields : List (GoStr × Json),
        getField fields ("name".toList) = none →
        getField fields ("sensor".toList) = none →
        getField fields ("parameter".toList) = none →
        Sensor.unmarshalJSON (.obj fields) = .ok {}) := by
  refine ⟨?_, ?_, ?_, ?_, ?_, ?_⟩
  · intro nm rest
    simp [readLoop, eligible]
  · intro fields v hget hstr hnull
    have hv : decodeStrField (some v) = .error .typeMismatch := by
      cases v with
      | null => exact absurd rfl hnull
      | str s => exact absurd rfl (hstr s)
      | bool b => rfl
      | num n => rfl
      | arr elems => rfl
      | obj fs => rfl
    have hname : decodeStrField (getField fields ("name".toList)) = .error .typeMismatch := by
      rw [hget]
      exact hv
    simp only [Sensor.unmarshalJSON]
    rw [hname]
    rfl
  · intro fields v hget hstr hnull
    have hv : decodeStrField (some v) = .error .typeMismatch := by
      cases v with
      | null => exact absurd rfl hnull
      | str s => exact absurd rfl (hstr s)
      | bool b => rfl
      | num n => rfl
      | arr elems => rfl
      | obj fs => rfl
    have hsen : decodeStrField (getField fields ("sensor".toList)) = .error .typeMismatch := by
      rw [hget]
      exact hv
    simp only [Sensor.unmarshalJSON]
    cases hname : decodeStrField (getField fields ("name".toList)) with
    | error e => cases e; rfl
    | ok nm => rw [hsen]; rfl
  · intro fields v hget hobj hnull
    have hv : decodeParameter (some v) = .error .typeMismatch := by
      cases v with
      | null => exact absurd rfl hnull
      | obj fs => exact absurd rfl (hobj fs)
      | bool b => rfl
      | num n => rfl
      | str s => rfl
      | arr elems => rfl
    have hp : decodeParameter (getField fields ("parameter".toList)) = .error .typeMismatch := by
      rw [hget]
      exact hv
    simp only [Sensor.unmarshalJSON]
    cases hname : decodeStrField (getField fields ("name".toList)) with
    | error e => cases e; rfl
    | ok nm =>
      cases hsen : decodeStrField (getField fields ("sensor".toList)) with
      | error e => cases e; rfl
      | ok mac => rw [hp]; rfl
  · intro j hobj hnull
    cases j with
    | null => exact absurd rfl hnull
    | obj fs => exact absurd rfl (hobj fs)
    | bool b => rfl
    | num n => rfl
    | str s => rfl
    | arr elems => rfl
  · intro fields h1 h2 h3
    simp only [Sensor.unmarshalJSON]
    rw [h1, h2, h3]
    rfl

/-- C9 amended witness: concrete instances of each universal decode-failure
mode — a wrong-typed `name`, a wrong-typed `sensor`, a wrong-typed
`parameter`, a non-object non-null top level — and of the unknown-keys-only
success mode. -/
theorem c9_amended_decode_failures_witness :
    Sensor.unmarshalJSON (.obj [("name".toList, Json.num 5)]) = .error .typeMismatch
    ∧ Sensor.unmarshalJSON (.obj [("sensor".toList, Json.bool true)]) = .error .typeMismatch
    ∧ Sensor.unmarshalJSON (.obj [("parameter".toList, Json.num 3)]) = .error .typeMismatch
    ∧ Sensor.unmarshalJSON (.arr []) = .error .typeMismatch
    ∧ Sensor.unmarshalJSON (.obj [("foo".toList, Json.num 1)]) = .ok {} :=
  ⟨c9_amended_decode_failures.2.1 [("name".toList, Json.num 5)] (Json.num 5) rfl
     (fun _ h => Json.noConfusion h) (fun h => Json.noConfusion h),
   c9_amended_decode_failures.2.2.1 [("sensor".toList, Json.bool true)] (Json.bool true) rfl
     (fun _ h => Json.noConfusion h) (fun h => Json.noConfusion h),
   c9_amended_decode_failures.2.2.2.1 [("parameter".toList, Json.num 3)] (Json.num 3) rfl
     (fun _ h => Json.noConfusion h) (fun h => Json.noConfusion h),
   c9_amended_decode_failures.2.2.2.2.1 (.arr [])
     (fun _ h => Json.noConfusion h) (fun h => Json.noConfusion h),
   c9_amended_decode_failures.2.2.2.2.2 [("foo".toList, Json.num 1)] rfl rfl rfl⟩

/-- C10 counterexample: the token `a=b=` is non-empty and ends in `=`, yet its
descriptor's hardware address is `b=`, not the empty string (splitting is on
the FIRST `=`). -/
theorem c10_trailing_eq_token_nonempty_address :
    parseSensor ("a=b=".toList) = .ok { name := "a".toList, macAddress := "b=".toList }
    ∧ ("b=".toList : GoStr) ≠ [] := by
  constructor
  · rfl
  · decide

/-- C10 amended: for every token whose ONLY `=` is its final character (such
tokens are non-empty), parsing succeeds with the whole prefix as the name and
the empty string as the hardware address, and `SensorList.Set` appends this
empty-address descriptor rather than rejecting it. -/
theorem c10_amended_trailing_eq_yields_empty_address
    (l : GoStr) (h : '=' ∉ l) :
    parseSensor (l ++ ['=']) = .ok { name := l, macAddress := [] }
    ∧ ∀ s : List Sensor,
        sensorListSet s (l ++ ['=']) = .ok (s ++ [{ name := l, macAddress := [] }]) := by
  have h0 : ¬ ((l ++ '=' :: ([] : GoStr)).length = 0) := by simp
  have hp : parseSensor (l ++ '=' :: ([] : GoStr)) = .ok { name := l, macAddress := [] } := by
    simp [parseSensor, h0, splitN2_first l [] h]
  exact ⟨hp, fun s => by simp [sensorListSet, hp]⟩

/-- C10 amended witness: the token `name=` parses to an empty address and is
appended to the empty sensor list. -/
theorem c10_amended_trailing_eq_yields_empty_address_witness :
    parseSensor ("name".toList ++ ['=']) =
      .ok { name := "name".toList, macAddress := [] }
    ∧ sensorListSet [] ("name".toList ++ ['=']) =
        .ok ([] ++ [{ name := "name".toList, macAddress := [] }]) :=
  ⟨(c10_amended_trailing_eq_yields_empty_address ("name".toList) (by decide)).1,
   (c10_amended_trailing_eq_yields_empty_address ("name".toList) (by decide)).2 []⟩

end Flowercare
